import Mathlib

/-!
Verification of the hibiki inference server's startup and admission layer
(`src/main.rs`) together with a spec-level model of the speculative-decoding
commit protocol of the `infer` module.

Conventions of the embedding:
* Rust `i32`/`i64` values become `Int`; `u32`/`usize` become `Nat` (no
  arithmetic overflows occur in the modelled code paths).
* `f32` values are only carried, never computed on, so they are modelled by
  their raw bit pattern (`F32`).
* Fallible Rust calls (`?`) become `Except Err` values; the outcomes of
  external calls (backend init, model loading, the two joined futures) are
  supplied by an `ExecEnv` record so that `exec` is a pure function of the
  environment and the parsed arguments.
-/

namespace Hibiki

/-- `llama_cpp_2::token::LlamaToken` wraps an `i32`. -/
abbrev LlamaToken := Int

/-- An `f32` value carried by configuration or a task; modelled by its raw
32-bit pattern since no float arithmetic occurs in the modelled code. -/
structure F32 where
  bits : Nat
deriving DecidableEq, Repr

/-- The sending half of a `flume` channel; `capacity` is the bound the channel
was created with. -/
structure FlumeSender (α : Type) where
  capacity : Nat
deriving DecidableEq, Repr

/-- The receiving half of a `flume` channel. -/
structure FlumeReceiver (α : Type) where
  capacity : Nat
deriving DecidableEq, Repr

/-- `struct CompletionsTask` (src/main.rs lines 27-36): tokenized input, a
sender handle for streamed output tokens, and six independently optional
sampling parameters. -/
structure CompletionsTask where
  from_api : FlumeSender LlamaToken
  input_token_list : List LlamaToken
  frequency_penalty : Option F32
  presence_penalty : Option F32
  seed : Option Int
  temperature : Option F32
  top_p : Option F32
  maximum_tokens : Option Nat
deriving DecidableEq, Repr

/-- `enum SplitMode` (src/main.rs lines 38-42). -/
inductive SplitMode where
  | layer
  | row
deriving DecidableEq, Repr

/-- A parsed `std::net::SocketAddr`; modelled by its textual form, which is
all the modelled code inspects. -/
structure SocketAddr where
  addr : String
deriving DecidableEq, Repr

/-- `struct Args` (src/main.rs lines 44-88) after clap parsing: every field
holds its final value, defaults already applied. -/
structure Args where
  bind_addr : SocketAddr
  model_path : String
  model_main_gpu : Option Int
  split_mode : Option SplitMode
  model_tensor_split_rate : Option (List F32)
  draft_model_path : Option String
  draft_model_main_gpu : Option Int
  draft_model_tensor_split_rate : Option (List F32)
  model_name : String
  parallel_tasks : Nat
  kv_cache_size_pre_task : Nat
  template : Option String
  max_unconfirmed_tokens : Nat
  n_candidates : Nat
deriving DecidableEq, Repr

/-- A command line as supplied by the user: `none` means the option was
omitted, so the clap `default_value` applies. Fields without a default in
`Args` keep their type. -/
structure CmdLine where
  bind_addr : Option SocketAddr
  model_path : String
  model_main_gpu : Option Int
  split_mode : Option SplitMode
  model_tensor_split_rate : Option (List F32)
  draft_model_path : Option String
  draft_model_main_gpu : Option Int
  draft_model_tensor_split_rate : Option (List F32)
  model_name : String
  parallel_tasks : Option Nat
  kv_cache_size_pre_task : Option Nat
  template : Option String
  max_unconfirmed_tokens : Option Nat
  n_candidates : Option Nat
deriving DecidableEq, Repr

/-- clap parsing of `Args` (src/main.rs lines 44-88): each `default_value`
attribute fills an omitted option. -/
def Args.parse (c : CmdLine) : Args where
  bind_addr := c.bind_addr.getD ⟨"0.0.0.0:30021"⟩
  model_path := c.model_path
  model_main_gpu := c.model_main_gpu
  split_mode := c.split_mode
  model_tensor_split_rate := c.model_tensor_split_rate
  draft_model_path := c.draft_model_path
  draft_model_main_gpu := c.draft_model_main_gpu
  draft_model_tensor_split_rate := c.draft_model_tensor_split_rate
  model_name := c.model_name
  parallel_tasks := c.parallel_tasks.getD 4
  kv_cache_size_pre_task := c.kv_cache_size_pre_task.getD 512
  template := c.template
  max_unconfirmed_tokens := c.max_unconfirmed_tokens.getD 8
  n_candidates := c.n_candidates.getD 16

/-! ### Model parameters (src/main.rs lines 124-168) -/

/-- `llama_cpp_sys_2::LLAMA_SPLIT_MODE_NONE`. -/
def LLAMA_SPLIT_MODE_NONE : Nat := 0

/-- `llama_cpp_sys_2::LLAMA_SPLIT_MODE_LAYER`. -/
def LLAMA_SPLIT_MODE_LAYER : Nat := 1

/-- `llama_cpp_sys_2::LLAMA_SPLIT_MODE_ROW`. -/
def LLAMA_SPLIT_MODE_ROW : Nat := 2

/-- The fields of `llama_cpp_2::model::params::LlamaModelParams` that the
modelled code sets. -/
structure LlamaModelParams where
  n_gpu_layers : Nat
  main_gpu : Int
  split_mode : Nat
  tensor_split : Option (List F32)
deriving DecidableEq, Repr

/-- `llama_model_default_params()`: layer split mode, main GPU 0, no tensor
split, 0 GPU layers. -/
def LlamaModelParams.default : LlamaModelParams where
  n_gpu_layers := 0
  main_gpu := 0
  split_mode := LLAMA_SPLIT_MODE_LAYER
  tensor_split := none

/-- `u32::MAX`. -/
def u32MAX : Nat := 4294967295

/-- Construction of the main model's parameters (src/main.rs lines 124-140):
default params with all GPU layers, then `model_main_gpu`, `split_mode` and
`model_tensor_split_rate` applied when present. -/
def mainModelParams (args : Args) : LlamaModelParams :=
  let p := { LlamaModelParams.default with n_gpu_layers := u32MAX }
  let p := match args.model_main_gpu with
    | some gpu_idx => { p with main_gpu := gpu_idx }
    | none => p
  let p := match args.split_mode with
    | some .layer => { p with split_mode := LLAMA_SPLIT_MODE_LAYER }
    | some .row => { p with split_mode := LLAMA_SPLIT_MODE_ROW }
    | none => p
  match args.model_tensor_split_rate with
    | some split => { p with tensor_split := some split }
    | none => p

/-- Construction of the draft model's parameters (src/main.rs lines 146-162):
default params with all GPU layers, then `draft_model_main_gpu`, the shared
`split_mode` option, and `draft_model_tensor_split_rate` applied when
present. -/
def draftModelParams (args : Args) : LlamaModelParams :=
  let p := { LlamaModelParams.default with n_gpu_layers := u32MAX }
  let p := match args.draft_model_main_gpu with
    | some gpu_idx => { p with main_gpu := gpu_idx }
    | none => p
  let p := match args.split_mode with
    | some .layer => { p with split_mode := LLAMA_SPLIT_MODE_LAYER }
    | some .row => { p with split_mode := LLAMA_SPLIT_MODE_ROW }
    | none => p
  match args.draft_model_tensor_split_rate with
    | some split => { p with tensor_split := some split }
    | none => p

/-! ### The startup function `exec` (src/main.rs lines 117-196) -/

/-- Errors propagated by `?`; identified by a message. -/
abbrev Err := String

/-- An initialized `LlamaBackend` handle. -/
structure Backend where
  id : Nat
deriving DecidableEq, Repr

/-- A loaded `LlamaModel` handle. -/
structure LlamaModel where
  id : Nat
deriving DecidableEq, Repr

/-- Outcomes of the external effectful calls `exec` makes, fixed by the
environment: the fallible startup steps, and the termination behavior of the
two joined futures (`none` means the future never completes). -/
structure ExecEnv where
  logger_init : Except Err Unit
  runtime_new : Except Err Unit
  backend_init : Except Err Backend
  load_main_model : LlamaModelParams → Except Err LlamaModel
  load_draft_model : LlamaModelParams → Except Err LlamaModel
  infer_outcome : Option (Except Err Unit)
  api_outcome : Option (Except Err Unit)

/-- `flume::bounded(cap)`: a connected sender/receiver pair, both bounded by
`cap`. -/
def flumeBounded (α : Type) (cap : Nat) : FlumeSender α × FlumeReceiver α :=
  (⟨cap⟩, ⟨cap⟩)

/-- The argument record of the `infer::run` invocation
(src/main.rs lines 173-182): main model, optional draft model, backend,
receive end of the admission channel, and the four numeric configuration
values. -/
structure InferRunCall where
  model : LlamaModel
  draft_model : Option LlamaModel
  backend : Backend
  rx : FlumeReceiver CompletionsTask
  kv_cache_size_pre_task : Nat
  parallel_tasks : Nat
  max_unconfirmed_tokens : Nat
  n_candidates : Nat
deriving DecidableEq, Repr

/-- The argument record of the `api::run` invocation
(src/main.rs lines 184-191). -/
structure ApiRunCall where
  bind_addr : SocketAddr
  model : LlamaModel
  model_name : String
  kv_cache_size_pre_task : Nat
  tx : FlumeSender CompletionsTask
  template : Option String
deriving DecidableEq, Repr

/-- `tokio::try_join!` on two futures with the given termination behaviors:
it completes with the first error, or with `ok` once both complete
successfully; otherwise it never completes. -/
def tryJoin (a b : Option (Except Err Unit)) : Option (Except Err Unit) :=
  match a, b with
  | some (.error e), _ => some (.error e)
  | _, some (.error e) => some (.error e)
  | some (.ok _), some (.ok _) => some (.ok ())
  | _, _ => none

/-- The observable result of `exec` (src/main.rs lines 117-196). -/
inductive ExecResult where
  /-- `exec` returned an error before `rt.block_on`: neither `infer::run` nor
  `api::run` was ever invoked. -/
  | startupError (e : Err)
  /-- Serving began: `infer::run` and `api::run` were invoked with these
  arguments, and `block_on` of their `try_join` had the given outcome
  (`none`: it never returns). -/
  | serving (inferCall : InferRunCall) (apiCall : ApiRunCall)
      (outcome : Option (Except Err Unit))

/-- `fn exec(args: Args) -> Result<()>` (src/main.rs lines 117-196): the
fallible startup sequence — logger, tokio runtime, backend, main model,
optional draft model — then creation of the bounded admission channel with
capacity 1024 and `block_on` of the joined `infer::run` and `api::run`. -/
def exec (env : ExecEnv) (args : Args) : ExecResult :=
  match env.logger_init with
  | .error e => .startupError e
  | .ok _ =>
  match env.runtime_new with
  | .error e => .startupError e
  | .ok _ =>
  match env.backend_init with
  | .error e => .startupError e
  | .ok backend =>
  match env.load_main_model (mainModelParams args) with
  | .error e => .startupError e
  | .ok model =>
  let draftRes : Except Err (Option LlamaModel) :=
    match args.draft_model_path with
    | some _ => (env.load_draft_model (draftModelParams args)).map some
    | none => .ok none
  match draftRes with
  | .error e => .startupError e
  | .ok draft_model =>
  let ch := flumeBounded CompletionsTask 1024
  let tx := ch.1
  let rx := ch.2
  let inferCall : InferRunCall :=
    { model := model
      draft_model := draft_model
      backend := backend
      rx := rx
      kv_cache_size_pre_task := args.kv_cache_size_pre_task
      parallel_tasks := args.parallel_tasks
      max_unconfirmed_tokens := args.max_unconfirmed_tokens
      n_candidates := args.n_candidates }
  let apiCall : ApiRunCall :=
    { bind_addr := args.bind_addr
      model := model
      model_name := args.model_name
      kv_cache_size_pre_task := args.kv_cache_size_pre_task
      tx := tx
      template := args.template }
  .serving inferCall apiCall (tryJoin env.infer_outcome env.api_outcome)

/-- `std::process::ExitCode` values used by `main`. -/
inductive ExitCode where
  | success
  | failure
deriving DecidableEq, Repr

/-- `fn main() -> ExitCode` (src/main.rs lines 198-208): `exec`'s `Ok` maps to
`SUCCESS`, `Err` to `FAILURE`; `none` means the process keeps running because
`block_on` never returned. -/
def main (env : ExecEnv) (args : Args) : Option ExitCode :=
  match exec env args with
  | .startupError _ => some .failure
  | .serving _ _ none => none
  | .serving _ _ (some (.ok _)) => some .success
  | .serving _ _ (some (.error _)) => some .failure

/-! ### Bounded-channel semantics (flume, the admission channel) -/

/-- The queue state of a flume bounded channel, oldest message first. -/
structure ChannelState (α : Type) where
  queue : List α
deriving DecidableEq, Repr

/-- Result of a submit on a bounded channel: either the message was enqueued,
or the channel was full and the submitter is blocked (`send`) or refused
(`try_send`) with the state unchanged. -/
inductive SendResult (α : Type) where
  | sent (s : ChannelState α)
  | full
deriving DecidableEq, Repr

/-- Submitting to a flume bounded channel of capacity `cap`: append when
below capacity, otherwise block/fail leaving the queue unchanged. -/
def ChannelState.submit (cap : Nat) (s : ChannelState α) (x : α) : SendResult α :=
  if s.queue.length < cap then .sent ⟨s.queue ++ [x]⟩ else .full

/-! ### Speculative decoding commit protocol

The `infer` and `sampler` modules are declared in `main.rs` but their source
is not part of the visible surface; the commit protocol below is modelled
from the spec (§4.2). The main model's sampling decision at a fixed seed is a
deterministic function `sample` of the committed context. -/

/-- Modelled from the spec: non-speculative generation from the `infer`
module, whose source is not visible. With speculative decoding disabled the
engine commits, at each step, the main model's sampled token for the current
committed context, extending the context by that token (§4.1 step 3,
§4.4). `genFrom sample ctx n` is the list of the next `n` committed
tokens. -/
def genFrom (sample : List LlamaToken → LlamaToken) (ctx : List LlamaToken) :
    Nat → List LlamaToken
  | 0 => []
  | n + 1 =>
    let t := sample ctx
    t :: genFrom sample (ctx ++ [t]) n

/-- Modelled from the spec: the acceptance walk of the speculative verifier
from the `infer` module, whose source is not visible (§4.2 step 3). The walk
visits the draft's candidates in order; at each position the committed token
is the one the main model samples there (its logits at that position depend
on the context extended by the earlier candidates, which all matched); the
walk stops at the first mismatch or at exhaustion, committing the main
model's own token at the stop position as the correction. -/
def specWalk (sample : List LlamaToken → LlamaToken) (ctx : List LlamaToken) :
    List LlamaToken → List LlamaToken
  | [] => [sample ctx]
  | c :: cs =>
    let t := sample ctx
    if t = c then t :: specWalk sample (ctx ++ [t]) cs else [t]

/-- Modelled from the spec: `k` speculative decode cycles for one slot
(§4.2). Each cycle the draft model proposes a candidate list for the current
committed context (`draft` is the draft model's arbitrary proposal function),
the verifier walks it, and the walk's commits extend the context. -/
def specRun (sample : List LlamaToken → LlamaToken)
    (draft : List LlamaToken → List LlamaToken) (ctx : List LlamaToken) :
    Nat → List LlamaToken
  | 0 => []
  | k + 1 =>
    let w := specWalk sample ctx (draft ctx)
    w ++ specRun sample draft (ctx ++ w) k

/-! ### Helper lemmas -/

theorem tryJoin_isSome {a b : Option (Except Err Unit)} {oc : Except Err Unit}
    (h : tryJoin a b = some oc) : a.isSome ∨ b.isSome := by
  cases a with
  | none =>
    cases b with
    | none => simp [tryJoin] at h
    | some eb => right; rfl
  | some ea => left; rfl

theorem genFrom_length (sample : List LlamaToken → LlamaToken)
    (ctx : List LlamaToken) (n : Nat) : (genFrom sample ctx n).length = n := by
  induction n generalizing ctx with
  | zero => rfl
  | succ n ih => simp [genFrom, ih]

theorem genFrom_add (sample : List LlamaToken → LlamaToken)
    (ctx : List LlamaToken) (m n : Nat) :
    genFrom sample ctx (m + n) =
      genFrom sample ctx m ++ genFrom sample (ctx ++ genFrom sample ctx m) n := by
  induction m generalizing ctx with
  | zero => simp [genFrom]
  | succ m ih =>
    have : m + 1 + n = (m + n) + 1 := by omega
    rw [this]
    simp only [genFrom, List.cons_append, List.cons.injEq, true_and]
    rw [ih (ctx ++ [sample ctx])]
    simp [List.append_assoc]

theorem specWalk_eq_genFrom (sample : List LlamaToken → LlamaToken)
    (ctx : List LlamaToken) (cands : List LlamaToken) :
    specWalk sample ctx cands =
      genFrom sample ctx (specWalk sample ctx cands).length := by
  induction cands generalizing ctx with
  | nil => simp [specWalk, genFrom]
  | cons c cs ih =>
    simp only [specWalk]
    by_cases hc : sample ctx = c
    · rw [if_pos hc]
      simp only [List.length_cons, genFrom, List.cons.injEq, true_and]
      exact ih (ctx ++ [sample ctx])
    · rw [if_neg hc]
      simp [genFrom]

/-- Everything `exec` guarantees about a run that reached serving: the
invocation records of `infer::run` and `api::run` are built exactly from the
startup results and the parsed arguments, the admission channel is bounded at
1024, and the serving outcome is that of the joined futures. -/
theorem exec_serving_inv (env : ExecEnv) (args : Args) (ic : InferRunCall)
    (ac : ApiRunCall) (oc : Option (Except Err Unit))
    (h : exec env args = .serving ic ac oc) :
    env.backend_init = .ok ic.backend ∧
    env.load_main_model (mainModelParams args) = .ok ic.model ∧
    ac.model = ic.model ∧
    ic.rx.capacity = 1024 ∧
    ac.tx.capacity = 1024 ∧
    ic.kv_cache_size_pre_task = args.kv_cache_size_pre_task ∧
    ic.parallel_tasks = args.parallel_tasks ∧
    ic.max_unconfirmed_tokens = args.max_unconfirmed_tokens ∧
    ic.n_candidates = args.n_candidates ∧
    ac.bind_addr = args.bind_addr ∧
    ac.model_name = args.model_name ∧
    ac.kv_cache_size_pre_task = args.kv_cache_size_pre_task ∧
    ac.template = args.template ∧
    (ic.draft_model.isSome ↔ args.draft_model_path.isSome) ∧
    (∀ m, ic.draft_model = some m →
      env.load_draft_model (draftModelParams args) = .ok m) ∧
    (args.draft_model_path = none → ic.draft_model = none) ∧
    oc = tryJoin env.infer_outcome env.api_outcome := by
  unfold exec at h
  cases hlg : env.logger_init with
  | error e => rw [hlg] at h; exact absurd h (by simp)
  | ok u =>
  rw [hlg] at h
  cases hrt : env.runtime_new with
  | error e => rw [hrt] at h; exact absurd h (by simp)
  | ok u2 =>
  rw [hrt] at h
  cases hbk : env.backend_init with
  | error e => rw [hbk] at h; exact absurd h (by simp)
  | ok backend =>
  rw [hbk] at h
  cases hlm : env.load_main_model (mainModelParams args) with
  | error e => rw [hlm] at h; exact absurd h (by simp)
  | ok model =>
  rw [hlm] at h
  cases hdp : args.draft_model_path with
  | none =>
    rw [hdp] at h
    simp only [flumeBounded] at h
    cases h
    refine ⟨rfl, rfl, rfl, rfl, rfl, rfl, rfl, rfl, rfl, rfl, rfl, rfl, rfl, ?_, ?_, ?_, rfl⟩
    · simp [hdp]
    · intro m hm; exact absurd hm (by simp)
    · intro _; rfl
  | some dpath =>
    rw [hdp] at h
    cases hld : env.load_draft_model (draftModelParams args) with
    | error e => rw [hld] at h; exact absurd h (by simp [Except.map])
    | ok dmodel =>
    rw [hld] at h
    simp only [Except.map, flumeBounded] at h
    cases h
    refine ⟨rfl, rfl, rfl, rfl, rfl, rfl, rfl, rfl, rfl, rfl, rfl, rfl, rfl, ?_, ?_, ?_, rfl⟩
    · simp [hdp]
    · intro m hm
      cases hm
      rfl
    · intro hnone; exact absurd hnone (by simp [hdp])

/-! ### Concrete fixtures for witnesses -/

/-- An environment in which every startup step succeeds and both joined
futures complete successfully. -/
def envW : ExecEnv where
  logger_init := .ok ()
  runtime_new := .ok ()
  backend_init := .ok ⟨0⟩
  load_main_model := fun _ => .ok ⟨1⟩
  load_draft_model := fun _ => .ok ⟨2⟩
  infer_outcome := some (.ok ())
  api_outcome := some (.ok ())

/-- A parsed argument set with every defaultable option at its default and no
draft model. -/
def argsW : Args where
  bind_addr := ⟨"0.0.0.0:30021"⟩
  model_path := "model.gguf"
  model_main_gpu := none
  split_mode := none
  model_tensor_split_rate := none
  draft_model_path := none
  draft_model_main_gpu := none
  draft_model_tensor_split_rate := none
  model_name := "m"
  parallel_tasks := 4
  kv_cache_size_pre_task := 512
  template := none
  max_unconfirmed_tokens := 8
  n_candidates := 16

/-- `argsW` with a draft model path supplied. -/
def argsWd : Args := { argsW with draft_model_path := some "draft.gguf" }

/-- The `infer::run` invocation `exec envW argsW` produces. -/
def icW : InferRunCall := ⟨⟨1⟩, none, ⟨0⟩, ⟨1024⟩, 512, 4, 8, 16⟩

/-- The `infer::run` invocation `exec envW argsWd` produces. -/
def icWd : InferRunCall := ⟨⟨1⟩, some ⟨2⟩, ⟨0⟩, ⟨1024⟩, 512, 4, 8, 16⟩

/-- The `api::run` invocation `exec envW argsW` produces. -/
def acW : ApiRunCall := ⟨⟨"0.0.0.0:30021"⟩, ⟨1⟩, "m", 512, ⟨1024⟩, none⟩

/-- A concrete task. -/
def taskW : CompletionsTask := ⟨⟨16⟩, [3, 1, 4], none, none, none, none, none, none⟩

/-- An admission-channel state holding exactly 1024 queued tasks. -/
def fullChan : ChannelState CompletionsTask := ⟨List.replicate 1024 taskW⟩

/-- A command line omitting every defaultable option. -/
def cW : CmdLine where
  bind_addr := none
  model_path := "model.gguf"
  model_main_gpu := none
  split_mode := none
  model_tensor_split_rate := none
  draft_model_path := none
  draft_model_main_gpu := none
  draft_model_tensor_split_rate := none
  model_name := "m"
  parallel_tasks := none
  kv_cache_size_pre_task := none
  template := none
  max_unconfirmed_tokens := none
  n_candidates := none

/-! ### Claim theorems -/

/-- C1: With a draft model configured, for every task and every fixed seed
(modelled by an arbitrary deterministic sampling function of the committed
context), the committed token sequence produced by any number of speculative
decode cycles, under any draft-model proposal behavior, is exactly the
sequence non-speculative decoding emits from the same context: acceptance or
rejection of draft candidates never alters the emitted tokens. -/
theorem speculative_equivalence (sample : List LlamaToken → LlamaToken)
    (draft : List LlamaToken → List LlamaToken) (ctx : List LlamaToken) (k : Nat) :
    specRun sample draft ctx k =
      genFrom sample ctx (specRun sample draft ctx k).length := by
  induction k generalizing ctx with
  | zero => rfl
  | succ k ih =>
    simp only [specRun, List.length_append]
    rw [genFrom_add]
    rw [← specWalk_eq_genFrom]
    rw [ih (ctx ++ specWalk sample ctx (draft ctx))]
    rw [genFrom_length]

/-- C2: The admission channel `exec` hands to `infer::run` and `api::run` is
bounded with one fixed capacity on both ends; submitting to a full channel
blocks or fails, leaving the queue unchanged, and any successful submit keeps
the queue within capacity — backpressure, never unbounded queueing and never
an engine failure. -/
theorem admission_channel_backpressure (env : ExecEnv) (args : Args)
    (ic : InferRunCall) (ac : ApiRunCall) (oc : Option (Except Err Unit))
    (h : exec env args = .serving ic ac oc)
    (s : ChannelState CompletionsTask) (t : CompletionsTask) :
    ac.tx.capacity = ic.rx.capacity ∧
    (s.queue.length = ac.tx.capacity →
      ChannelState.submit ac.tx.capacity s t = .full) ∧
    (∀ s', ChannelState.submit ac.tx.capacity s t = .sent s' →
      s'.queue.length ≤ ac.tx.capacity) := by
  obtain ⟨-, -, -, hrx, htx, -⟩ := exec_serving_inv env args ic ac oc h
  refine ⟨htx.trans hrx.symm, ?_, ?_⟩
  · intro hfull
    unfold ChannelState.submit
    rw [if_neg (by omega)]
  · intro s' hs'
    unfold ChannelState.submit at hs'
    by_cases hlt : s.queue.length < ac.tx.capacity
    · rw [if_pos hlt] at hs'
      cases hs'
      simp only [List.length_append, List.length_cons, List.length_nil]
      omega
    · rw [if_neg hlt] at hs'
      exact absurd hs' (by simp)

/-- C2 witness: submitting a task to the channel created by a concrete
successful run, when its queue already holds 1024 tasks, is refused. -/
theorem admission_channel_backpressure_witness :
    ChannelState.submit acW.tx.capacity fullChan taskW = .full :=
  (admission_channel_backpressure envW argsW icW acW (some (.ok ())) rfl
    fullChan taskW).2.1 (List.length_replicate 1024 taskW)

/-- C3: a `CompletionsTask` carries an input token sequence, a sender handle
for streamed output tokens, and exactly the six independently optional
sampling parameters: any combination of values is constructible with those
exact fields, and every task is fully determined by them. -/
theorem task_fields_exact (snd : FlumeSender LlamaToken)
    (inp : List LlamaToken) (fp pp tmp tp : Option F32) (sd : Option Int)
    (mx : Option Nat) :
    ((CompletionsTask.mk snd inp fp pp sd tmp tp mx).from_api = snd ∧
     (CompletionsTask.mk snd inp fp pp sd tmp tp mx).input_token_list = inp ∧
     (CompletionsTask.mk snd inp fp pp sd tmp tp mx).frequency_penalty = fp ∧
     (CompletionsTask.mk snd inp fp pp sd tmp tp mx).presence_penalty = pp ∧
     (CompletionsTask.mk snd inp fp pp sd tmp tp mx).seed = sd ∧
     (CompletionsTask.mk snd inp fp pp sd tmp tp mx).temperature = tmp ∧
     (CompletionsTask.mk snd inp fp pp sd tmp tp mx).top_p = tp ∧
     (CompletionsTask.mk snd inp fp pp sd tmp tp mx).maximum_tokens = mx) ∧
    (∀ t : CompletionsTask,
      t = ⟨t.from_api, t.input_token_list, t.frequency_penalty,
           t.presence_penalty, t.seed, t.temperature, t.top_p,
           t.maximum_tokens⟩) := by
  exact ⟨⟨rfl, rfl, rfl, rfl, rfl, rfl, rfl, rfl⟩, fun t => rfl⟩

/-- C4: whenever serving begins, `infer::run` is invoked with exactly the
loaded main model, the optional draft model, the backend, the receive end of
the bounded admission channel, and the four numeric configuration values from
the parsed arguments. -/
theorem infer_run_invocation (env : ExecEnv) (args : Args) (ic : InferRunCall)
    (ac : ApiRunCall) (oc : Option (Except Err Unit))
    (h : exec env args = .serving ic ac oc) :
    env.backend_init = .ok ic.backend ∧
    env.load_main_model (mainModelParams args) = .ok ic.model ∧
    (ic.draft_model.isSome ↔ args.draft_model_path.isSome) ∧
    ic.rx.capacity = 1024 ∧
    ic.parallel_tasks = args.parallel_tasks ∧
    ic.kv_cache_size_pre_task = args.kv_cache_size_pre_task ∧
    ic.max_unconfirmed_tokens = args.max_unconfirmed_tokens ∧
    ic.n_candidates = args.n_candidates := by
  obtain ⟨h1, h2, -, h4, -, h6, h7, h8, h9, -, -, -, -, h14, -⟩ :=
    exec_serving_inv env args ic ac oc h
  exact ⟨h1, h2, h14, h4, h7, h6, h8, h9⟩

/-- C4 witness: the invocation produced by a concrete successful run. -/
theorem infer_run_invocation_witness :
    envW.backend_init = .ok icW.backend ∧
    envW.load_main_model (mainModelParams argsW) = .ok icW.model ∧
    (icW.draft_model.isSome ↔ argsW.draft_model_path.isSome) ∧
    icW.rx.capacity = 1024 ∧
    icW.parallel_tasks = argsW.parallel_tasks ∧
    icW.kv_cache_size_pre_task = argsW.kv_cache_size_pre_task ∧
    icW.max_unconfirmed_tokens = argsW.max_unconfirmed_tokens ∧
    icW.n_candidates = argsW.n_candidates :=
  infer_run_invocation envW argsW icW acW (some (.ok ())) rfl

/-- C5: if backend initialization, main-model loading, or draft-model loading
fails (the steps before it having succeeded), `exec` returns that exact error
— the `startupError` result, under which neither `infer::run` nor `api::run`
was ever invoked — and `main` exits with the failure exit code. -/
theorem startup_failure_exits (env : ExecEnv) (args : Args) (e : Err)
    (hlg : env.logger_init = .ok ()) (hrt : env.runtime_new = .ok ()) :
    (env.backend_init = .error e →
      exec env args = .startupError e ∧ main env args = some .failure) ∧
    (∀ b, env.backend_init = .ok b →
      env.load_main_model (mainModelParams args) = .error e →
      exec env args = .startupError e ∧ main env args = some .failure) ∧
    (∀ b m, env.backend_init = .ok b →
      env.load_main_model (mainModelParams args) = .ok m →
      args.draft_model_path.isSome →
      env.load_draft_model (draftModelParams args) = .error e →
      exec env args = .startupError e ∧ main env args = some .failure) := by
  refine ⟨?_, ?_, ?_⟩
  · intro hbk
    have hx : exec env args = .startupError e := by
      unfold exec
      rw [hlg, hrt, hbk]
    exact ⟨hx, by unfold main; rw [hx]⟩
  · intro b hbk hlm
    have hx : exec env args = .startupError e := by
      unfold exec
      rw [hlg, hrt, hbk, hlm]
    exact ⟨hx, by unfold main; rw [hx]⟩
  · intro b m hbk hlm hdp hld
    obtain ⟨dpath, hdp⟩ := Option.isSome_iff_exists.mp hdp
    have hx : exec env args = .startupError e := by
      unfold exec
      rw [hlg, hrt, hbk, hlm, hdp, hld]
      rfl
    exact ⟨hx, by unfold main; rw [hx]⟩

/-- C5 witness: a concrete run whose backend initialization fails exits with
failure before serving. -/
theorem startup_failure_exits_witness :
    exec { envW with backend_init := .error "backend init failed" } argsW =
      .startupError "backend init failed" ∧
    main { envW with backend_init := .error "backend init failed" } argsW =
      some .failure :=
  (startup_failure_exits { envW with backend_init := .error "backend init failed" }
    argsW "backend init failed" rfl rfl).1 rfl

/-- C6: the engine receives a draft-model handle if and only if a draft-model
path was supplied: with a path present the loaded draft model is passed as
`some`, and with no path `none` is passed. -/
theorem draft_model_iff_path (env : ExecEnv) (args : Args) (ic : InferRunCall)
    (ac : ApiRunCall) (oc : Option (Except Err Unit))
    (h : exec env args = .serving ic ac oc) :
    (ic.draft_model.isSome ↔ args.draft_model_path.isSome) ∧
    (∀ m, ic.draft_model = some m →
      env.load_draft_model (draftModelParams args) = .ok m) ∧
    (args.draft_model_path = none → ic.draft_model = none) := by
  obtain ⟨-, -, -, -, -, -, -, -, -, -, -, -, -, h14, h15, h16, -⟩ :=
    exec_serving_inv env args ic ac oc h
  exact ⟨h14, h15, h16⟩

/-- C6 witness: a concrete run with a draft-model path passes the loaded
draft model as `some`. -/
theorem draft_model_iff_path_witness :
    icWd.draft_model.isSome ↔ argsWd.draft_model_path.isSome :=
  (draft_model_iff_path envW argsWd icWd acW (some (.ok ())) rfl).1

/-- C7: once serving begins, `block_on` of the joined engine loop and API
server completes only when at least one of them terminates, and `main` maps
the outcome to the exit code: success on clean shutdown, failure
otherwise. -/
theorem exec_returns_only_on_termination (env : ExecEnv) (args : Args)
    (ic : InferRunCall) (ac : ApiRunCall) (oc : Except Err Unit)
    (h : exec env args = .serving ic ac (some oc)) :
    (env.infer_outcome.isSome ∨ env.api_outcome.isSome) ∧
    (oc = .ok () → main env args = some .success) ∧
    (∀ e, oc = .error e → main env args = some .failure) := by
  obtain ⟨-, -, -, -, -, -, -, -, -, -, -, -, -, -, -, -, h17⟩ :=
    exec_serving_inv env args ic ac (some oc) h
  refine ⟨tryJoin_isSome h17.symm, ?_, ?_⟩
  · intro hok
    unfold main
    rw [h, hok]
  · intro e herr
    unfold main
    rw [h, herr]

/-- C7 witness: a concrete run whose joined futures both complete cleanly
terminates with the success exit code. -/
theorem exec_returns_only_on_termination_witness :
    (envW.infer_outcome.isSome ∨ envW.api_outcome.isSome) ∧
    main envW argsW = some .success :=
  ⟨(exec_returns_only_on_termination envW argsW icW acW (.ok ()) rfl).1,
   (exec_returns_only_on_termination envW argsW icW acW (.ok ()) rfl).2.1 rfl⟩

/-- C8: the admission channel's capacity is the hard-coded constant 1024 for
every argument set — `Args` has no field that influences it, so no
command-line option can change it. -/
theorem admission_capacity_const (env : ExecEnv) (args : Args)
    (ic : InferRunCall) (ac : ApiRunCall) (oc : Option (Except Err Unit))
    (h : exec env args = .serving ic ac oc) :
    ic.rx.capacity = 1024 ∧ ac.tx.capacity = 1024 := by
  obtain ⟨-, -, -, h4, h5, -⟩ := exec_serving_inv env args ic ac oc h
  exact ⟨h4, h5⟩

/-- C8 witness: the capacity of the channel of a concrete run. -/
theorem admission_capacity_const_witness :
    icW.rx.capacity = 1024 ∧ acW.tx.capacity = 1024 :=
  admission_capacity_const envW argsW icW acW (some (.ok ())) rfl

/-- C9: there is no draft-specific split-mode option; the shared
`--split-mode` value is applied to both models, so the draft model's split
mode always equals the main model's. -/
theorem draft_split_mode_eq_main (args : Args) :
    (draftModelParams args).split_mode = (mainModelParams args).split_mode := by
  rcases args with ⟨ba, mp, mg, sm, ts, dp, dg, dts, mn, pt, kv, tpl, mu, nc⟩
  cases mg <;> cases dg <;> cases ts <;> cases dts <;>
    rcases sm with _ | sm <;> first | rfl | (cases sm <;> rfl)

/-- C10: a command line omitting the defaultable options parses to
`parallel_tasks = 4`, `kv_cache_size_pre_task = 512`,
`max_unconfirmed_tokens = 8`, `n_candidates = 16` and bind address
`0.0.0.0:30021`, and any run over those arguments starts the engine with
exactly these values. -/
theorem default_config (c : CmdLine)
    (hb : c.bind_addr = none) (hp : c.parallel_tasks = none)
    (hk : c.kv_cache_size_pre_task = none)
    (hm : c.max_unconfirmed_tokens = none) (hn : c.n_candidates = none) :
    (Args.parse c).bind_addr = ⟨"0.0.0.0:30021"⟩ ∧
    (Args.parse c).parallel_tasks = 4 ∧
    (Args.parse c).kv_cache_size_pre_task = 512 ∧
    (Args.parse c).max_unconfirmed_tokens = 8 ∧
    (Args.parse c).n_candidates = 16 ∧
    (∀ env ic ac oc, exec env (Args.parse c) = .serving ic ac oc →
      ic.parallel_tasks = 4 ∧ ic.kv_cache_size_pre_task = 512 ∧
      ic.max_unconfirmed_tokens = 8 ∧ ic.n_candidates = 16 ∧
      ac.bind_addr = ⟨"0.0.0.0:30021"⟩) := by
  refine ⟨by simp [Args.parse, hb], by simp [Args.parse, hp],
    by simp [Args.parse, hk], by simp [Args.parse, hm],
    by simp [Args.parse, hn], ?_⟩
  intro env ic ac oc h
  obtain ⟨-, -, -, -, -, h6, h7, h8, h9, h10, -⟩ :=
    exec_serving_inv env (Args.parse c) ic ac oc h
  refine ⟨?_, ?_, ?_, ?_, ?_⟩
  · rw [h7]; simp [Args.parse, hp]
  · rw [h6]; simp [Args.parse, hk]
  · rw [h8]; simp [Args.parse, hm]
  · rw [h9]; simp [Args.parse, hn]
  · rw [h10]; simp [Args.parse, hb]

/-- C10 witness: the concrete command line omitting every defaultable option
parses to exactly the documented defaults, and a concrete run over it starts
the engine with them. -/
theorem default_config_witness :
    (Args.parse cW).parallel_tasks = 4 ∧
    (Args.parse cW).kv_cache_size_pre_task = 512 ∧
    (Args.parse cW).max_unconfirmed_tokens = 8 ∧
    (Args.parse cW).n_candidates = 16 ∧
    (Args.parse cW).bind_addr = ⟨"0.0.0.0:30021"⟩ ∧
    icW.parallel_tasks = 4 :=
  ⟨(default_config cW rfl rfl rfl rfl rfl).2.1,
   (default_config cW rfl rfl rfl rfl rfl).2.2.1,
   (default_config cW rfl rfl rfl rfl rfl).2.2.2.1,
   (default_config cW rfl rfl rfl rfl rfl).2.2.2.2.1,
   (default_config cW rfl rfl rfl rfl rfl).1,
   (default_config cW rfl rfl rfl rfl rfl).2.2.2.2.2 envW icW acW
     (some (.ok ())) rfl |>.1⟩

end Hibiki
